import Mathlib

/-!
Verification of the Feedback-Pulse review-ingestion pipeline.

This file gives a shallow embedding, in Lean 4, of the parts of the
repository that the verified properties talk about:

* `hash_data` (src/security.py, SecurityManager.hash_data): SHA-256 hex
  digest of the UTF-8 encoding of a string, implemented here in full
  (padding, message schedule, 64-round compression) over `Nat` with
  explicit reduction modulo 2 ^ 32.
* `_preprocess_text` (src/analyzer.py, SentimentAnalyzer._preprocess_text):
  replace characters outside the class of word characters, whitespace and
  ".,!?-" by a space, collapse whitespace runs, strip.
* `analyze_sentiment`, `analyze_batch` (src/analyzer.py): language
  detection, translation and polarity are effectful library calls; they
  are modelled as an explicit environment of possibly-failing functions.
* `parse_reviews` (src/parser.py): the retry loop, modelled over an
  abstract per-attempt load outcome.
* `process_reviews_batch`, `load_cache`, the end-of-run statistics
  (src/main.py).
* `_validate_config` (src/config.py).

Python exceptions are modelled with `Except`; machine floats carrying
sentiment polarities are modelled by `Rat`.
-/

/-- Exceptions that the modelled Python code can observe. -/
inductive PyExc
  | attributeError
  | langDetectError
  | translationError
  | networkError
  | parsingError
  | otherError
  deriving DecidableEq, Repr

/-! ## SHA-256 (hashlib.sha256, used by SecurityManager.hash_data) -/

/-- Reduction modulo 2 ^ 32: the implicit word size of every SHA-256 operation. -/
def w32 (n : Nat) : Nat := n % 4294967296

/-- Right rotation of a 32-bit word. -/
def rotr (n x : Nat) : Nat := w32 ((x >>> n) ||| (x <<< (32 - n)))

/-- The 64 SHA-256 round constants (FIPS 180-4 section 4.2.2), in decimal,
four per row. -/
def sha256KRows : List (List Nat) :=
  [[1116352408, 1899447441, 3049323471, 3921009573],
   [961987163, 1508970993, 2453635748, 2870763221],
   [3624381080, 310598401, 607225278, 1426881987],
   [1925078388, 2162078206, 2614888103, 3248222580],
   [3835390401, 4022224774, 264347078, 604807628],
   [770255983, 1249150122, 1555081692, 1996064986],
   [2554220882, 2821834349, 2952996808, 3210313671],
   [3336571891, 3584528711, 113926993, 338241895],
   [666307205, 773529912, 1294757372, 1396182291],
   [1695183700, 1986661051, 2177026350, 2456956037],
   [2730485921, 2820302411, 3259730800, 3345764771],
   [3516065817, 3600352804, 4094571909, 275423344],
   [430227734, 506948616, 659060556, 883997877],
   [958139571, 1322822218, 1537002063, 1747873779],
   [1955562222, 2024104815, 2227730452, 2361852424],
   [2428436474, 2756734187, 3204031479, 3329325298]]

/-- The 64 SHA-256 round constants as one table. -/
def sha256K : List Nat := sha256KRows.flatten

/-- State of the eight SHA-256 working registers. -/
structure Hash8 where
  a : Nat
  b : Nat
  c : Nat
  d : Nat
  e : Nat
  f : Nat
  g : Nat
  h : Nat
  deriving DecidableEq, Repr

/-- The SHA-256 initial hash value (FIPS 180-4 section 5.3.3), in decimal. -/
def sha256Init : Hash8 where
  a := 1779033703
  b := 3144134277
  c := 1013904242
  d := 2773480762
  e := 1359893119
  f := 2600822924
  g := 528734635
  h := 1541459225

/-- Big-endian 8-byte encoding of a natural number (the length field of the padding). -/
def beBytes8 (n : Nat) : List Nat :=
  [(n >>> 56) % 256, (n >>> 48) % 256, (n >>> 40) % 256, (n >>> 32) % 256,
   (n >>> 24) % 256, (n >>> 16) % 256, (n >>> 8) % 256, n % 256]

/-- SHA-256 padding: append 0x80, zeros to 56 mod 64, then the bit length. -/
def sha256Pad (msg : List Nat) : List Nat :=
  let L := msg.length
  msg ++ [0x80] ++ List.replicate ((120 - ((L + 1) % 64)) % 64) 0 ++ beBytes8 (8 * L)

/-- Combine bytes, four at a time big-endian, into 32-bit words. -/
def beWords : List Nat → List Nat
  | a :: b :: c :: d :: rest => (((a * 256 + b) * 256 + c) * 256 + d) :: beWords rest
  | _ => []

/-- Split a byte list into 64-byte blocks; the fuel argument is the block count. -/
def chunk64 : Nat → List Nat → List (List Nat)
  | 0, _ => []
  | n + 1, bs => bs.take 64 :: chunk64 n (bs.drop 64)

/-- The sigma-0 function of the SHA-256 message schedule. -/
def ssig0 (x : Nat) : Nat := (rotr 7 x) ^^^ (rotr 18 x) ^^^ (x >>> 3)

/-- The sigma-1 function of the SHA-256 message schedule. -/
def ssig1 (x : Nat) : Nat := (rotr 17 x) ^^^ (rotr 19 x) ^^^ (x >>> 10)

/-- The Sigma-0 function of the SHA-256 compression round. -/
def bsig0 (x : Nat) : Nat := (rotr 2 x) ^^^ (rotr 13 x) ^^^ (rotr 22 x)

/-- The Sigma-1 function of the SHA-256 compression round. -/
def bsig1 (x : Nat) : Nat := (rotr 6 x) ^^^ (rotr 11 x) ^^^ (rotr 25 x)

/-- The choice function of the SHA-256 compression round. -/
def shaCh (x y z : Nat) : Nat := (x &&& y) ^^^ ((x ^^^ 0xffffffff) &&& z)

/-- The majority function of the SHA-256 compression round. -/
def shaMaj (x y z : Nat) : Nat := (x &&& y) ^^^ (x &&& z) ^^^ (y &&& z)

/-- The 64-entry message schedule of one 64-byte block. -/
def sha256Schedule (block : List Nat) : List Nat :=
  (List.range 48).foldl
    (fun W i =>
      let t := i + 16
      W ++ [w32 (ssig1 (W.getD (t - 2) 0) + W.getD (t - 7) 0 +
                 ssig0 (W.getD (t - 15) 0) + W.getD (t - 16) 0)])
    (beWords block)

/-- One application of the SHA-256 compression function. -/
def sha256Compress (H : Hash8) (block : List Nat) : Hash8 :=
  let W := sha256Schedule block
  let s := (List.range 64).foldl
    (fun (st : Hash8) i =>
      let T1 := w32 (st.h + bsig1 st.e + shaCh st.e st.f st.g + sha256K.getD i 0 + W.getD i 0)
      let T2 := w32 (bsig0 st.a + shaMaj st.a st.b st.c)
      ⟨w32 (T1 + T2), st.a, st.b, st.c, w32 (st.d + T1), st.e, st.f, st.g⟩)
    H
  ⟨w32 (H.a + s.a), w32 (H.b + s.b), w32 (H.c + s.c), w32 (H.d + s.d),
   w32 (H.e + s.e), w32 (H.f + s.f), w32 (H.g + s.g), w32 (H.h + s.h)⟩

/-- SHA-256 of a byte list, as the final register state. -/
def sha256Digest (msg : List Nat) : Hash8 :=
  let padded := sha256Pad msg
  (chunk64 (padded.length / 64) padded).foldl sha256Compress sha256Init

/-- Lower-case hexadecimal digit. -/
def hexDigitChar (n : Nat) : Char := Char.ofNat (if n < 10 then 48 + n else 87 + n)

/-- The eight hex characters of one 32-bit word, most significant first. -/
def wordHexChars (w : Nat) : List Char :=
  (List.range 8).map (fun i => hexDigitChar ((w >>> (28 - 4 * i)) &&& 15))

/-- Hex digest string of a SHA-256 register state. -/
def sha256HexOf (H : Hash8) : String :=
  ⟨(([H.a, H.b, H.c, H.d, H.e, H.f, H.g, H.h]).map wordHexChars).flatten⟩

/-- UTF-8 encoding of one character, as Python str.encode produces it. -/
def utf8Encode (c : Char) : List Nat :=
  let n := c.toNat
  if n < 0x80 then [n]
  else if n < 0x800 then [0xc0 + (n >>> 6), 0x80 + (n &&& 0x3f)]
  else if n < 0x10000 then
    [0xe0 + (n >>> 12), 0x80 + ((n >>> 6) &&& 0x3f), 0x80 + (n &&& 0x3f)]
  else
    [0xf0 + (n >>> 18), 0x80 + ((n >>> 12) &&& 0x3f), 0x80 + ((n >>> 6) &&& 0x3f),
     0x80 + (n &&& 0x3f)]

/-- The UTF-8 bytes of a string, as data.encode() in Python. -/
def strBytes (s : String) : List Nat := (s.data.map utf8Encode).flatten

/-- SecurityManager.hash_data (src/security.py lines 70-73):
hashlib.sha256(data.encode()).hexdigest(). -/
def hash_data (data : String) : String := sha256HexOf (sha256Digest (strBytes data))

set_option maxRecDepth 100000 in
example : hash_data "hi" = "8f434346648f6b96df89dda901c5176b10a6d83961dd3c1ac88b59b2dc327aa4" := by
  decide

/-! ## Text preprocessing (SentimentAnalyzer._preprocess_text, src/analyzer.py lines 49-57) -/

/-- The regex class backslash-w restricted to ASCII, as it applies to the
ASCII review texts considered here: letters, digits and the underscore. -/
def pyWordChar (c : Char) : Bool := c.isAlphanum || c.toNat == 95

/-- The regex class backslash-s: space, tab, newline, carriage return,
form feed, vertical tab. -/
def pySpaceChar (c : Char) : Bool :=
  c.toNat == 32 || c.toNat == 9 || c.toNat == 10 || c.toNat == 13 || c.toNat == 12 || c.toNat == 11

/-- Characters the first substitution keeps: word characters, whitespace
and the literals ".,!?-" (codes 46, 44, 33, 63, 45). -/
def keepChar (c : Char) : Bool :=
  pyWordChar c || pySpaceChar c ||
    c.toNat == 46 || c.toNat == 44 || c.toNat == 33 || c.toNat == 63 || c.toNat == 45

/-- First substitution: every character outside `keepChar` becomes a space. -/
def subSpecial (c : Char) : Char := if keepChar c then c else Char.ofNat 32

/-- Second substitution: collapse each maximal whitespace run to one space.
The flag records whether the previous character was part of a run. -/
def collapseWs : Bool → List Char → List Char
  | _, [] => []
  | prevWs, c :: rest =>
    if pySpaceChar c then
      if prevWs then collapseWs true rest else Char.ofNat 32 :: collapseWs true rest
    else c :: collapseWs false rest

/-- Python str.strip: drop leading and trailing whitespace. -/
def stripChars (l : List Char) : List Char :=
  ((l.dropWhile pySpaceChar).reverse.dropWhile pySpaceChar).reverse

/-- SentimentAnalyzer._preprocess_text: substitute special characters by
spaces, collapse whitespace, strip. (The empty and non-string guard of the
Python code is subsumed by the total encoding over strings: the guard
returns the empty string exactly when the input is empty.) -/
def _preprocess_text (text : String) : String :=
  ⟨stripChars (collapseWs false (text.data.map subSpecial))⟩

example : _preprocess_text "a@b" = "a b" := by decide
example : _preprocess_text "  a   b  " = "a b" := by decide
example : _preprocess_text "Great service!" = "Great service!" := by decide

/-! ## Sentiment analysis (src/analyzer.py) -/

/-- A Python value as seen by the analyze input guards: None, a string,
or a value of any other type. -/
inductive PyObj
  | pyNone
  | pyStr (s : String)
  | pyNonStr
  deriving DecidableEq, Repr

/-- The effectful library calls the analyzer makes, as possibly-failing
functions: langdetect.detect, TextBlob(...).sentiment.polarity, and
TextTranslator.translate. The configured target language travels with
them. -/
structure AnalyzerEnv where
  detect : String → Except PyExc String
  polarity : String → Except PyExc Rat
  translate : String → String → Except PyExc String
  target_language : String

/-- SentimentAnalyzer._detect_language (src/analyzer.py lines 22-35):
empty text gives "unknown"; a failing detect call is caught and gives
"unknown". -/
def _detect_language (env : AnalyzerEnv) (text : String) : String :=
  if text = "" then "unknown"
  else
    match env.detect text with
    | .ok l => l
    | .error _ => "unknown"

/-- SentimentAnalyzer._get_sentiment (src/analyzer.py lines 37-47):
empty text gives 0.0; a failing polarity call is caught and gives 0.0. -/
def _get_sentiment (env : AnalyzerEnv) (text : String) : Rat :=
  if text = "" then 0
  else
    match env.polarity text with
    | .ok p => p
    | .error _ => 0

/-- SentimentAnalyzer.analyze_sentiment (src/analyzer.py lines 59-88):
guard None, non-strings and the empty string; preprocess; detect the
language; translate when the detected language differs from the target,
falling back to (0.0, detected language) if translation fails; score the
(possibly translated) text. All library failures are modelled through the
environment; every branch of the Python body either returns a pair or is
caught by a handler that returns a pair, so the embedding is a total
function. -/
def analyze_sentiment (env : AnalyzerEnv) (text : PyObj) : Rat × String :=
  match text with
  | .pyNone => (0, "unknown")
  | .pyNonStr => (0, "unknown")
  | .pyStr s =>
    if s = "" then (0, "unknown")
    else
      let t := _preprocess_text s
      if t = "" then (0, "unknown")
      else
        let detected_lang := _detect_language env t
        if detected_lang ≠ env.target_language then
          match env.translate t env.target_language with
          | .error _ => (0, detected_lang)
          | .ok translated => (_get_sentiment env translated, detected_lang)
        else (_get_sentiment env t, detected_lang)

/-- SentimentAnalyzer.analyze_batch (src/analyzer.py lines 90-105): submit
analyze_sentiment for every text to a thread pool and collect results in
completion order. The completion order is modelled by the function
`order`; a run of the pool corresponds to an `order` that permutes its
input. future.result() re-raises only exceptions escaping the submitted
call, and analyze_sentiment is total, so the except branch that would
append (0.0, "unknown") is unreachable. -/
def analyze_batch (env : AnalyzerEnv) (order : List PyObj → List PyObj)
    (texts : List PyObj) : List (Rat × String) :=
  if texts = [] then []
  else (order texts).map (analyze_sentiment env)

/-! ## Fetching with retries (ReviewParser, src/parser.py) -/

/-- One parsed review (the Review dataclass of src/parser.py lines 25-30);
the float rating is modelled by Rat. -/
structure Review where
  text : String
  rating : Rat
  author : String
  date : String
  deriving DecidableEq, Repr

/-- Failures _load_reviews can raise: NetworkError (timeout, WebDriver
failure), ParsingError (any other failure inside _load_reviews), or an
unexpected exception of another class. -/
inductive FetchErr
  | network (msg : String)
  | parsing (msg : String)
  | other (msg : String)
  deriving DecidableEq, Repr

/-- The retry loop of ReviewParser.parse_reviews (src/parser.py lines
171-184), with _load_reviews abstracted as the per-attempt outcome `load`.
The pair returned is the result together with the number of attempts made;
the recursion is on the number of loop iterations remaining (so attempt
`i` of the Python loop runs with `remaining = max_retries - i`, and the
`remaining = 0` base case is the implicit None returned when the loop in
Python runs zero times). A NetworkError on the last attempt is re-raised;
on an earlier attempt the loop sleeps 2 ^ attempt seconds, recreates the
driver and retries; every other exception is re-raised at once. -/
def parse_go (load : Nat → Except FetchErr (List Review)) (attempt : Nat) :
    Nat → Except FetchErr (Option (List Review)) × Nat
  | 0 => (.ok none, 0)
  | remaining + 1 =>
    match load attempt with
    | .ok l => (.ok (some l), 1)
    | .error (.network m) =>
      if remaining = 0 then (.error (.network m), 1)
      else
        let r := parse_go load (attempt + 1) remaining
        (r.1, r.2 + 1)
    | .error e => (.error e, 1)

/-- ReviewParser.parse_reviews: run the retry loop from attempt 0 with
max_retries iterations available. -/
def parse_reviews (load : Nat → Except FetchErr (List Review)) (max_retries : Nat) :
    Except FetchErr (Option (List Review)) × Nat :=
  parse_go load 0 max_retries

/-! ## Batch processing (process_reviews_batch, src/main.py lines 57-149) -/

/-- One record of the reviews cache (the dict appended at src/main.py
lines 98-106). -/
structure CacheEntry where
  text : String
  hash : String
  sentiment : Rat
  language : String
  rating : Rat
  author : String
  date : String
  deriving DecidableEq, Repr

/-- The cache record built for one new review (src/main.py lines 92-106).
security_manager.validate_review(review) is called first, but it returns a
Bool that the caller discards, and its body catches every exception, so it
affects nothing; analyzer.analyze_sentiment is total, so the per-review
except handlers of the loop are unreachable and every new review is
appended. -/
def makeEntry (env : AnalyzerEnv) (r : Review) : CacheEntry :=
  let sl := analyze_sentiment env (.pyStr r.text)
  { text := r.text, hash := hash_data r.text, sentiment := sl.1, language := sl.2,
    rating := r.rating, author := r.author, date := r.date }

/-- process_reviews_batch (src/main.py lines 57-149) with the fetch
outcome passed in: on NetworkError, ParsingError or any other exception
the handlers return the cache unchanged; `.ok none` is the None that
parse_reviews yields when max_retries is 0, on which len(reviews) raises
TypeError, caught by the generic handler, returning the cache. Otherwise
the reviews whose hash already occurs in the cache are filtered out and
each remaining review is analyzed and appended. -/
def process_reviews_batch (env : AnalyzerEnv)
    (fetched : Except FetchErr (Option (List Review)))
    (cache : List CacheEntry) : List CacheEntry :=
  match fetched with
  | .error _ => cache
  | .ok none => cache
  | .ok (some reviews) =>
    let new_reviews :=
      reviews.filter (fun r => !(cache.any (fun c => c.hash == hash_data r.text)))
    if new_reviews.isEmpty then cache
    else new_reviews.foldl (fun acc r => acc ++ [makeEntry env r]) cache

/-! ## Cache loading (load_cache, src/main.py lines 33-47) -/

/-- The names of the methods that class SecurityManager (src/security.py
lines 27-160) defines. -/
def securityManagerMethods : List String :=
  ["_initialize_encryption", "encrypt_data", "decrypt_data", "generate_secure_token",
   "hash_data", "validate_url", "validate_telegram_token", "validate_chat_id",
   "sanitize_text", "secure_config", "load_secure_config", "save_secure_config",
   "validate_review"]

/-- The cache-loading method of SecurityManager, were one defined: none is.
SecurityManager defines load_secure_config and save_secure_config for the
configuration file, but no load_secure_cache (see
securityManagerMethods). -/
def securityManagerLoadSecureCache : Option (String → List CacheEntry) := none

/-- load_cache (src/main.py lines 33-47): attribute lookup of
load_secure_cache on the SecurityManager instance. The attribute does not
exist, so the call raises AttributeError before doing anything else; the
generic handler at lines 45-47 catches it and returns the empty list. The
second component records the exception that was caught. -/
def load_cache_run : List CacheEntry × Option PyExc :=
  match securityManagerLoadSecureCache with
  | some f => (f "reviews_cache.json", none)
  | none => ([], some PyExc.attributeError)

/-- The in-memory cache main starts with (src/main.py lines 193-198):
load_cache when caching is enabled, the empty list otherwise. -/
def initialCache (cacheEnabled : Bool) : List CacheEntry :=
  if cacheEnabled then load_cache_run.1 else []

/-! ## End-of-run statistics (src/main.py lines 213-225) -/

/-- The statistics main logs and sends after a run. -/
structure RunStats where
  total_reviews : Nat
  average_sentiment : Rat
  languages : List String
  deriving DecidableEq, Repr

/-- The statistics block of main (src/main.py lines 213-225): nothing is
computed for an empty cache; otherwise the count, the mean of the
sentiment fields and the deduplicated language list of every entry of the
final cache. list(set(languages)) has unspecified order and is modelled
as first-occurrence deduplication. -/
def runStats (cache : List CacheEntry) : Option RunStats :=
  if cache.isEmpty then none
  else
    some { total_reviews := cache.length
         , average_sentiment := (cache.map (fun e => e.sentiment)).sum / (cache.length : Rat)
         , languages := (cache.map (fun e => e.language)).eraseDups }

/-! ## Configuration validation (ConfigManager._validate_config, src/config.py lines 186-224)

The configuration document is modelled with each section optional (a
missing key of the JSON object) and the validated fields present and of
the type the schema intends, which is the domain the specification
describes; the isinstance guards of the Python code are identically true
on this domain. -/

/-- The validated fields of the parser section. -/
structure ParserSection where
  max_retries : Int
  timeout : Int
  deriving DecidableEq, Repr

/-- The validated field of the analyzer section. -/
structure AnalyzerSection where
  min_confidence : Rat
  deriving DecidableEq, Repr

/-- The validated fields of the notifier section. -/
structure NotifierSection where
  enabled : Bool
  telegram_token : String
  chat_id : String
  deriving DecidableEq, Repr

/-- The validated field of the cache section. -/
structure CacheSection where
  max_size : Int
  deriving DecidableEq, Repr

/-- The validated field of the logging section. -/
structure LoggingSection where
  level : String
  deriving DecidableEq, Repr

/-- A configuration document; the security section carries no validated
field, only its presence is checked. -/
structure PyConfig where
  parser : Option ParserSection
  analyzer : Option AnalyzerSection
  notifier : Option NotifierSection
  cache : Option CacheSection
  logging : Option LoggingSection
  security : Option Unit
  deriving DecidableEq, Repr

/-- The accepted logging levels (src/config.py line 222). -/
def validLevels : List String := ["DEBUG", "INFO", "WARNING", "ERROR", "CRITICAL"]

/-- ConfigManager._validate_config (src/config.py lines 186-224): check
the six required sections in order, then the parser, analyzer, notifier,
cache and logging constraints in the order the code performs them,
raising ValueError (modelled as .error with the offending field) at the
first violation. -/
def _validate_config (c : PyConfig) : Except String Unit :=
  match c.parser with
  | none => .error "missing section parser"
  | some p =>
    match c.analyzer with
    | none => .error "missing section analyzer"
    | some a =>
      match c.notifier with
      | none => .error "missing section notifier"
      | some n =>
        match c.cache with
        | none => .error "missing section cache"
        | some k =>
          match c.logging with
          | none => .error "missing section logging"
          | some lg =>
            match c.security with
            | none => .error "missing section security"
            | some _ =>
              if p.max_retries < 1 then .error "max_retries"
              else if p.timeout < 1 then .error "timeout"
              else if ¬ (0 ≤ a.min_confidence ∧ a.min_confidence ≤ 1) then
                .error "min_confidence"
              else if n.enabled && n.telegram_token == "" then .error "telegram_token"
              else if n.enabled && n.chat_id == "" then .error "chat_id"
              else if k.max_size < 1 then .error "max_size"
              else if ¬ (validLevels.contains lg.level) then .error "level"
              else .ok ()

/-- The list of constraints stated by the specification, as one Boolean
violation predicate, written from the words of the spec (section 6 of
spec.md): a required section missing, max_retries below 1, timeout below
1, min_confidence outside the unit interval, max_size below 1, an invalid
logging level, or notifications enabled with an empty token or chat id. -/
def statedViolation (c : PyConfig) : Bool :=
  c.parser.isNone || c.analyzer.isNone || c.notifier.isNone ||
  c.cache.isNone || c.logging.isNone || c.security.isNone ||
  (match c.parser with
   | some p => decide (p.max_retries < 1) || decide (p.timeout < 1)
   | none => false) ||
  (match c.analyzer with
   | some a => !(decide (0 ≤ a.min_confidence) && decide (a.min_confidence ≤ 1))
   | none => false) ||
  (match c.cache with
   | some k => decide (k.max_size < 1)
   | none => false) ||
  (match c.logging with
   | some lg => !(validLevels.contains lg.level)
   | none => false) ||
  (match c.notifier with
   | some n => n.enabled && (n.telegram_token == "" || n.chat_id == "")
   | none => false)

/-- A configuration whose sections are all present and whose constrained
fields are all in range except that notifications are enabled with an
empty token (the end-to-end scenario of spec.md section 8). -/
def enabledEmptyTokenConfig : PyConfig :=
  { parser := some ⟨3, 10⟩
  , analyzer := some ⟨(6 : Rat) / 10⟩
  , notifier := some ⟨true, "", "123456789"⟩
  , cache := some ⟨1000⟩
  , logging := some ⟨"INFO"⟩
  , security := some () }

/-! ## Concrete fixtures used by witnesses and counterexamples -/

/-- A benign analyzer environment: detection answers the target language,
polarity is neutral, translation is the identity. -/
def env0 : AnalyzerEnv := ⟨fun _ => .ok "en", fun _ => .ok 0, fun t _ => .ok t, "en"⟩

/-- An environment in which every library call fails. -/
def envFail0 : AnalyzerEnv :=
  ⟨fun _ => .error .langDetectError, fun _ => .error .otherError,
   fun _ _ => .error .translationError, "en"⟩

/-- An environment that detects a non-target language and whose
translation call fails. -/
def envTrFail0 : AnalyzerEnv :=
  ⟨fun _ => .ok "fr", fun _ => .ok 1, fun _ _ => .error .translationError, "en"⟩

/-- An environment whose polarity call succeeds on the text "good" only. -/
def envPartial0 : AnalyzerEnv :=
  ⟨fun _ => .ok "en", fun t => if t == "good" then .ok ((1 : Rat) / 2) else .error .otherError,
   fun t _ => .ok t, "en"⟩

/-- Two short texts for the batch witness. -/
def demoTexts : List PyObj := [.pyStr "a", .pyStr "b"]

/-- Concrete reviews. -/
def rHi : Review := ⟨"hi", 5, "Ann", "2024-01-01"⟩

/-- A review whose text normalizes to "a b". -/
def rAtB : Review := ⟨"a@b", 4, "Bob", "2024-01-02"⟩

/-- A review whose sentiment analysis succeeds under envPartial0. -/
def rGood : Review := ⟨"good", 5, "Cal", "2024-01-03"⟩

/-- A review whose polarity call fails under envPartial0. -/
def rBad : Review := ⟨"bad", 1, "Dee", "2024-01-04"⟩

/-! ## Helper lemmas -/

/-- Appending one image at a time is mapping then appending. -/
theorem helperFoldlPush {α β : Type} (f : α → β) :
    ∀ (l : List α) (init : List β),
      l.foldl (fun acc x => acc ++ [f x]) init = init ++ l.map f := by
  intro l
  induction l with
  | nil => intro init; simp
  | cons x xs ih => intro init; simp [ih]

/-! ## Claim theorems -/

/-- Claim C3: if the fetch fails — NetworkError after exhausted retries,
ParsingError, or any other exception — process_reviews_batch returns the
cache it was given, unchanged. -/
theorem fetch_failure_preserves_cache (env : AnalyzerEnv) (C : List CacheEntry)
    (e : FetchErr) : process_reviews_batch env (.error e) C = C := rfl

/-- Claim C2: load_cache targets the method load_secure_cache, which
SecurityManager does not define, so the call raises AttributeError, the
generic handler converts it to the empty list, and every run starts with
an empty in-memory cache whether caching is enabled or not. -/
theorem load_cache_always_empty :
    load_cache_run = ([], some PyExc.attributeError) ∧
    securityManagerMethods.contains "load_secure_cache" = false ∧
    ∀ b : Bool, initialCache b = [] := by
  refine ⟨rfl, by decide, ?_⟩
  intro b
  cases b <;> rfl

/-- Claim C6: analyze_sentiment is a total function (the embedding returns
a pair on every input); the empty string, None and non-string inputs give
exactly (0.0, "unknown"); and in an environment in which every library
call fails, every input gives (0.0, "unknown"). -/
theorem analyze_sentiment_total_and_boundary (env envF : AnalyzerEnv)
    (hd : ∀ t, (envF.detect t).isOk = false)
    (ht : ∀ t l, (envF.translate t l).isOk = false)
    (hp : ∀ t, (envF.polarity t).isOk = false) :
    analyze_sentiment env .pyNone = (0, "unknown") ∧
    analyze_sentiment env .pyNonStr = (0, "unknown") ∧
    analyze_sentiment env (.pyStr "") = (0, "unknown") ∧
    ∀ x, analyze_sentiment envF x = (0, "unknown") := by
  refine ⟨rfl, rfl, rfl, ?_⟩
  intro x
  cases x with
  | pyNone => rfl
  | pyNonStr => rfl
  | pyStr s =>
    by_cases hs : s = ""
    · simp [analyze_sentiment, hs]
    · by_cases hpre : _preprocess_text s = ""
      · simp [analyze_sentiment, hs, hpre]
      · have hdet : _detect_language envF (_preprocess_text s) = "unknown" := by
          unfold _detect_language
          cases hD : envF.detect (_preprocess_text s) with
          | ok l =>
            have := hd (_preprocess_text s)
            rw [hD] at this
            simp [Except.isOk, Except.toBool] at this
          | error e => simp [hpre]
        have hg : _get_sentiment envF (_preprocess_text s) = 0 := by
          unfold _get_sentiment
          cases hP : envF.polarity (_preprocess_text s) with
          | ok p =>
            have := hp (_preprocess_text s)
            rw [hP] at this
            simp [Except.isOk, Except.toBool] at this
          | error e => simp [hpre]
        by_cases htgt : ("unknown" : String) = envF.target_language
        · simp [analyze_sentiment, hs, hpre, hdet, htgt, hg]
        · cases hT : envF.translate (_preprocess_text s) envF.target_language with
          | ok tr =>
            have := ht (_preprocess_text s) envF.target_language
            rw [hT] at this
            simp [Except.isOk, Except.toBool] at this
          | error e =>
            simp [analyze_sentiment, hs, hpre, hdet, htgt, hT]

/-- Closed instance of Claim C6 at the all-failing environment envFail0. -/
theorem analyze_sentiment_total_and_boundary_witness :
    analyze_sentiment envFail0 .pyNone = (0, "unknown") ∧
    analyze_sentiment envFail0 .pyNonStr = (0, "unknown") ∧
    analyze_sentiment envFail0 (.pyStr "") = (0, "unknown") ∧
    analyze_sentiment envFail0 (.pyStr "hello there") = (0, "unknown") := by
  have h := analyze_sentiment_total_and_boundary envFail0 envFail0
    (fun _ => rfl) (fun _ _ => rfl) (fun _ => rfl)
  exact ⟨h.1, h.2.1, h.2.2.1, h.2.2.2 (.pyStr "hello there")⟩

/-- Claim C7: when the detected language differs from the configured
target language and the translation call fails, analyze_sentiment returns
exactly (0.0, detected language): it neither scores the untranslated text
nor raises. -/
theorem translation_failure_falls_back (env : AnalyzerEnv) (s lang : String)
    (hs : s ≠ "") (hpre : _preprocess_text s ≠ "")
    (hdet : env.detect (_preprocess_text s) = .ok lang)
    (hne : lang ≠ env.target_language)
    (htr : (env.translate (_preprocess_text s) env.target_language).isOk = false) :
    analyze_sentiment env (.pyStr s) = (0, lang) := by
  have hdl : _detect_language env (_preprocess_text s) = lang := by
    unfold _detect_language
    simp [hpre, hdet]
  cases hT : env.translate (_preprocess_text s) env.target_language with
  | ok tr =>
    rw [hT] at htr
    simp [Except.isOk, Except.toBool] at htr
  | error e =>
    simp [analyze_sentiment, hs, hpre, hdl, hne, hT]

/-- Closed instance of Claim C7: envTrFail0 detects "fr" for "hola",
target is "en", translation fails, result (0, "fr"). -/
theorem translation_failure_falls_back_witness :
    analyze_sentiment envTrFail0 (.pyStr "hola") = (0, "fr") :=
  translation_failure_falls_back envTrFail0 "hola" "fr"
    (by decide) (by decide) rfl (by decide) rfl

/-- Claim C8: for every completion order that permutes the submitted
texts, analyze_batch returns exactly as many results as it was given
texts, and every result is the analysis of one of the submitted texts. -/
theorem analyze_batch_complete (env : AnalyzerEnv)
    (order : List PyObj → List PyObj) (texts : List PyObj)
    (hperm : (order texts).Perm texts) :
    (analyze_batch env order texts).length = texts.length ∧
    ∀ p ∈ analyze_batch env order texts, ∃ t ∈ texts, p = analyze_sentiment env t := by
  unfold analyze_batch
  by_cases h : texts = []
  · subst h; simp
  · simp only [h, if_false]
    constructor
    · rw [List.length_map, hperm.length_eq]
    · intro p hp
      rcases List.mem_map.mp hp with ⟨t, ht, rfl⟩
      exact ⟨t, hperm.subset ht, rfl⟩

/-- Closed instance of Claim C8 with completion in reverse order. -/
theorem analyze_batch_complete_witness :
    (analyze_batch env0 List.reverse demoTexts).length = demoTexts.length ∧
    ∃ t ∈ demoTexts, analyze_sentiment env0 (.pyStr "a") = analyze_sentiment env0 t := by
  have h := analyze_batch_complete env0 List.reverse demoTexts (by decide)
  exact ⟨h.1, h.2 (analyze_sentiment env0 (.pyStr "a")) (by decide)⟩

set_option maxRecDepth 1000000

/-- Claim C1 counterexample: the batch filter checks incoming reviews only
against the cache passed in, which is not extended during filtering, so
the same text occurring twice in one batch is appended twice: processing
the batch [rHi, rHi] into an empty cache produces two cache entries whose
hash equals hash_data "hi". -/
theorem dedup_duplicate_within_batch_cex :
    (process_reviews_batch env0 (.ok (some [rHi, rHi])) []).countP
      (fun e => e.hash == hash_data "hi") = 2 := by decide

/-- Claim C1 (amended): deduplication is idempotent across the cache
boundary — if some entry with fingerprint h is already in the cache, a
run adds no further entry with that fingerprint, whatever batch is
presented — but duplicates inside one batch are each inserted. -/
theorem dedup_no_reinsert_of_cached_hash (env : AnalyzerEnv) (R : List Review)
    (C : List CacheEntry) (h : String)
    (hc : C.any (fun c => c.hash == h) = true) :
    (process_reviews_batch env (.ok (some R)) C).countP (fun e => e.hash == h)
      = C.countP (fun e => e.hash == h) := by
  unfold process_reviews_batch
  by_cases hemp :
      (R.filter (fun r => !(C.any (fun c => c.hash == hash_data r.text)))).isEmpty
  · simp [hemp]
  · simp only [hemp, Bool.false_eq_true, if_false]
    rw [helperFoldlPush, List.countP_append]
    have hzero :
        (List.map (makeEntry env)
          (R.filter (fun r => !(C.any (fun c => c.hash == hash_data r.text))))).countP
          (fun e => e.hash == h) = 0 := by
      rw [List.countP_eq_zero]
      intro e he
      rcases List.mem_map.mp he with ⟨r, hr, rfl⟩
      rcases List.mem_filter.mp hr with ⟨hrR, hq⟩
      rw [Bool.not_eq_true'] at hq
      rcases List.any_eq_true.mp hc with ⟨c0, hc0, hch⟩
      intro habs
      have hh : hash_data r.text = h := by
        simpa [makeEntry] using habs
      have hany : C.any (fun c => c.hash == hash_data r.text) = true :=
        List.any_eq_true.mpr ⟨c0, hc0, by rw [hh]; exact hch⟩
      rw [hq] at hany
      cases hany
    rw [hzero]
    omega

/-- Closed instance of the amended Claim C1: with the entry for "hi"
already cached, presenting "hi" again leaves the count of entries carrying
its fingerprint unchanged. -/
theorem dedup_no_reinsert_of_cached_hash_witness :
    ([makeEntry env0 rHi].any (fun c => c.hash == hash_data "hi") = true) ∧
    (process_reviews_batch env0 (.ok (some [rHi])) [makeEntry env0 rHi]).countP
        (fun e => e.hash == hash_data "hi")
      = ([makeEntry env0 rHi]).countP (fun e => e.hash == hash_data "hi") :=
  ⟨by decide,
   dedup_no_reinsert_of_cached_hash env0 [rHi] [makeEntry env0 rHi] (hash_data "hi")
     (by decide)⟩

/-- Claim C5 counterexample: "a b" and "a@b" normalize to the same text,
yet the entry stored for the review "a@b" carries the digest of the raw
text "a@b", which differs from the digest of its normalized form "a b":
the fingerprint is not computed from the normalized text, and
normalization-equal texts fingerprint differently. -/
theorem fingerprint_raw_not_normalized_cex :
    _preprocess_text "a@b" = _preprocess_text "a b" ∧
    (process_reviews_batch env0 (.ok (some [rAtB])) []).map (fun e => e.hash)
      = [hash_data "a@b"] ∧
    hash_data "a@b" ≠ hash_data (_preprocess_text "a@b") :=
  ⟨by decide, by decide, by decide⟩

/-- Claim C5 (amended): every entry a run adds to the cache carries as
fingerprint the digest of its own raw (unnormalized) text. -/
theorem process_entry_hash_is_raw_digest (env : AnalyzerEnv) (R : List Review)
    (C : List CacheEntry) :
    ∀ e ∈ process_reviews_batch env (.ok (some R)) C,
      e ∈ C ∨ e.hash = hash_data e.text := by
  intro e he
  unfold process_reviews_batch at he
  by_cases hemp :
      (R.filter (fun r => !(C.any (fun c => c.hash == hash_data r.text)))).isEmpty
  · simp only [hemp, if_true] at he
    exact .inl he
  · simp only [hemp, Bool.false_eq_true, if_false] at he
    rw [helperFoldlPush] at he
    rcases List.mem_append.mp he with h1 | h2
    · exact .inl h1
    · rcases List.mem_map.mp h2 with ⟨r, _, rfl⟩
      exact .inr (by simp [makeEntry])

/-- Closed instance of the amended Claim C5: the entry stored for the
review "a@b" fingerprints its raw text. -/
theorem process_entry_hash_is_raw_digest_witness :
    makeEntry env0 rAtB ∈ process_reviews_batch env0 (.ok (some [rAtB])) [] ∧
    (makeEntry env0 rAtB ∈ ([] : List CacheEntry) ∨
      (makeEntry env0 rAtB).hash = hash_data (makeEntry env0 rAtB).text) :=
  ⟨by decide,
   process_entry_hash_is_raw_digest env0 [rAtB] [] (makeEntry env0 rAtB) (by decide)⟩

/-- Claim C10 counterexample: under envPartial0 the polarity call for the
review "bad" fails, so its analysis degrades to sentiment 0.0, yet the
review still receives a cache entry: the end-of-run statistics over the
batch [rGood, rBad] count 2 reviews with average 1/4, not the 1 review
with average 1/2 that excluding the failed analysis would give — the
failed review is zero-filled into both the count and the average. -/
theorem stats_zero_fill_failed_analysis_cex :
    runStats (process_reviews_batch envPartial0 (.ok (some [rGood, rBad])) [])
      = some ⟨2, (1 : Rat) / 4, ["en"]⟩ ∧
    (envPartial0.polarity (_preprocess_text "bad")).isOk = false ∧
    (2 : Nat) ≠ 1 ∧ ((1 : Rat) / 4) ≠ (1 : Rat) / 2 :=
  ⟨by with_unfolding_all decide, by decide, by decide, by with_unfolding_all decide⟩

/-- Claim C10 (amended): the end-of-run statistics are computed over every
entry of the cache the run returns; every fetched review that passes the
dedup filter is appended — analysis failures degrade to a 0.0 sentiment
inside analyze_sentiment instead of raising — so the reported total is the
prior cache size plus the number of new reviews, independently of which
analyses failed. -/
theorem stats_total_counts_every_new_review (env : AnalyzerEnv) (R : List Review)
    (C : List CacheEntry)
    (h : ¬(C = [] ∧
        R.filter (fun r => !(C.any (fun c => c.hash == hash_data r.text))) = [])) :
    (runStats (process_reviews_batch env (.ok (some R)) C)).map
        (fun st => st.total_reviews)
      = some (C.length +
          (R.filter (fun r => !(C.any (fun c => c.hash == hash_data r.text)))).length) := by
  unfold process_reviews_batch
  by_cases hemp :
      (R.filter (fun r => !(C.any (fun c => c.hash == hash_data r.text)))).isEmpty
  · have hFnil : R.filter (fun r => !(C.any (fun c => c.hash == hash_data r.text))) = [] :=
      List.isEmpty_iff.mp hemp
    have hC : C ≠ [] := fun hCnil => h ⟨hCnil, hFnil⟩
    have hCisE : ¬(C.isEmpty = true) := fun hh => hC (List.isEmpty_iff.mp hh)
    simp only [hemp, if_true]
    unfold runStats
    rw [if_neg hCisE]
    simp [hFnil]
  · have hFne : R.filter (fun r => !(C.any (fun c => c.hash == hash_data r.text))) ≠ [] :=
      fun hh => by rw [hh] at hemp; simp at hemp
    simp only [hemp, Bool.false_eq_true, if_false]
    rw [helperFoldlPush]
    have hisE : ¬((C ++ (R.filter
        (fun r => !(C.any (fun c => c.hash == hash_data r.text)))).map
          (makeEntry env)).isEmpty = true) := by
      intro hh
      rcases List.append_eq_nil.mp (List.isEmpty_iff.mp hh) with ⟨-, hmap⟩
      exact hFne (List.map_eq_nil_iff.mp hmap)
    unfold runStats
    rw [if_neg hisE]
    simp [List.length_append, List.length_map]

/-- Closed instance of the amended Claim C10: one new review whose
analysis succeeds, starting from an empty cache, is counted once. -/
theorem stats_total_counts_every_new_review_witness :
    (runStats (process_reviews_batch envPartial0 (.ok (some [rGood])) [])).map
        (fun st => st.total_reviews)
      = some ((([] : List CacheEntry)).length +
          ([rGood].filter
            (fun r => !((([] : List CacheEntry)).any
              (fun c => c.hash == hash_data r.text)))).length) :=
  stats_total_counts_every_new_review envPartial0 [rGood] [] (by decide)

/-- One unfolding step of the retry loop. -/
theorem helperParseGoSucc (load : Nat → Except FetchErr (List Review))
    (attempt rem : Nat) :
    parse_go load attempt (rem + 1)
      = match load attempt with
        | .ok l => (.ok (some l), 1)
        | .error (.network m) =>
          if rem = 0 then (.error (.network m), 1)
          else ((parse_go load (attempt + 1) rem).1, (parse_go load (attempt + 1) rem).2 + 1)
        | .error e => (.error e, 1) := rfl

/-- If every attempt in the window fails with NetworkError, the loop uses
every remaining attempt and re-raises the last NetworkError. -/
theorem helperParseGoAllNetwork (load : Nat → Except FetchErr (List Review))
    (m : Nat → String) :
    ∀ (remaining attempt : Nat), 1 ≤ remaining →
      (∀ i, attempt ≤ i → i < attempt + remaining → load i = .error (.network (m i))) →
      parse_go load attempt remaining
        = (.error (.network (m (attempt + remaining - 1))), remaining) := by
  intro remaining
  induction remaining with
  | zero => intro attempt h; omega
  | succ n ih =>
    intro attempt _ hall
    have hl : load attempt = .error (.network (m attempt)) :=
      hall attempt le_rfl (by omega)
    by_cases hn : n = 0
    · subst hn
      simp [parse_go, hl]
    · have hrec := ih (attempt + 1) (by omega)
        (fun i h1 h2 => hall i (by omega) (by omega))
      have hidx : attempt + 1 + n - 1 = attempt + (n + 1) - 1 := by omega
      simp [parse_go, hl, hn, hrec, hidx]

/-- If the first n attempts fail with NetworkError and attempt n succeeds,
the loop returns the parsed list after exactly n + 1 attempts. -/
theorem helperParseGoSuccessLast (load : Nat → Except FetchErr (List Review))
    (L : List Review) (m : Nat → String) :
    ∀ (n attempt : Nat),
      (∀ i, attempt ≤ i → i < attempt + n → load i = .error (.network (m i))) →
      load (attempt + n) = .ok L →
      parse_go load attempt (n + 1) = (.ok (some L), n + 1) := by
  intro n
  induction n with
  | zero =>
    intro attempt _ hok
    simp only [Nat.add_zero] at hok
    simp [parse_go, hok]
  | succ n ih =>
    intro attempt hall hok
    have hl : load attempt = .error (.network (m attempt)) :=
      hall attempt le_rfl (by omega)
    have hrec := ih (attempt + 1)
      (fun i h1 h2 => hall i (by omega) (by omega))
      (by rw [show attempt + 1 + n = attempt + (n + 1) by omega]; exact hok)
    have hstep : parse_go load attempt (n + 1 + 1)
        = ((parse_go load (attempt + 1) (n + 1)).1,
           (parse_go load (attempt + 1) (n + 1)).2 + 1) := by
      rw [helperParseGoSucc, hl]
      simp
    rw [hstep, hrec]

/-- A ParsingError (or any exception other than NetworkError) at attempt d
is re-raised at once, after d + 1 attempts, however many retries remain. -/
theorem helperParseGoParsingAt (load : Nat → Except FetchErr (List Review))
    (m : Nat → String) (mp : String) :
    ∀ (d attempt remaining : Nat), d < remaining →
      (∀ i, attempt ≤ i → i < attempt + d → load i = .error (.network (m i))) →
      load (attempt + d) = .error (.parsing mp) →
      parse_go load attempt remaining = (.error (.parsing mp), d + 1) := by
  intro d
  induction d with
  | zero =>
    intro attempt remaining hrem _ hp
    simp only [Nat.add_zero] at hp
    cases remaining with
    | zero => omega
    | succ r => simp [parse_go, hp]
  | succ d ih =>
    intro attempt remaining hrem hall hp
    cases remaining with
    | zero => omega
    | succ r =>
      have hl : load attempt = .error (.network (m attempt)) :=
        hall attempt le_rfl (by omega)
      have hr0 : r ≠ 0 := by omega
      have hrec := ih (attempt + 1) r (by omega)
        (fun i h1 h2 => hall i (by omega) (by omega))
        (by rw [show attempt + 1 + d = attempt + (d + 1) by omega]; exact hp)
      simp [parse_go, hl, hr0, hrec]

/-- Claim C4: with max_retries = k at least 1, a source failing with
NetworkError on all k attempts makes parse_reviews re-raise the last
NetworkError after exactly k attempts; a source failing on the first k - 1
attempts and succeeding on attempt k makes it return the parsed list after
exactly k attempts, with no further attempt; and a ParsingError at any
attempt j is re-raised immediately, after j + 1 attempts, with no retry. -/
theorem retry_bound (load1 load2 load3 : Nat → Except FetchErr (List Review))
    (k : Nat) (hk : 1 ≤ k) (m1 m2 m3 : Nat → String) (L : List Review)
    (j : Nat) (mp : String) :
    ((∀ i, i < k → load1 i = .error (.network (m1 i))) →
      parse_reviews load1 k = (.error (.network (m1 (k - 1))), k)) ∧
    ((∀ i, i < k - 1 → load2 i = .error (.network (m2 i))) → load2 (k - 1) = .ok L →
      parse_reviews load2 k = (.ok (some L), k)) ∧
    (j < k → (∀ i, i < j → load3 i = .error (.network (m3 i))) →
      load3 j = .error (.parsing mp) →
      parse_reviews load3 k = (.error (.parsing mp), j + 1)) := by
  refine ⟨?_, ?_, ?_⟩
  · intro hall
    have h := helperParseGoAllNetwork load1 m1 k 0 hk
      (fun i _ h2 => hall i (by omega))
    simpa using h
  · intro hall hok
    obtain ⟨n, rfl⟩ : ∃ n, k = n + 1 := ⟨k - 1, by omega⟩
    have h := helperParseGoSuccessLast load2 L m2 n 0
      (fun i _ h2 => hall i (by omega))
      (by simpa using hok)
    simpa using h
  · intro hj hall hp
    have h := helperParseGoParsingAt load3 m3 mp j 0 k hj
      (fun i _ h2 => hall i (by omega))
      (by simpa using hp)
    simpa using h

/-- Closed instance of Claim C4 with max_retries = 2: exhaustion after two
network failures, success on the second attempt, and an immediate
ParsingError. -/
theorem retry_bound_witness :
    parse_reviews (fun _ => .error (.network "down")) 2
      = (.error (.network "down"), 2) ∧
    parse_reviews (fun i => if i == 0 then .error (.network "down") else .ok [rHi]) 2
      = (.ok (some [rHi]), 2) ∧
    parse_reviews (fun _ => .error (.parsing "bad page")) 2
      = (.error (.parsing "bad page"), 1) := by
  have h := retry_bound (fun _ => .error (.network "down"))
    (fun i => if i == 0 then .error (.network "down") else .ok [rHi])
    (fun _ => .error (.parsing "bad page")) 2 (by omega)
    (fun _ => "down") (fun _ => "down") (fun _ => "down") [rHi] 0 "bad page"
  refine ⟨h.1 (fun i _ => rfl), ?_, h.2.2 (by omega) (fun i hi => absurd hi (by omega)) rfl⟩
  exact h.2.1 (fun i hi => by
      have hi0 : i = 0 := by omega
      subst hi0
      rfl) rfl

/-- Claim C9: _validate_config rejects a configuration exactly when one of
the stated constraints is violated — a missing required section,
max_retries below 1, timeout below 1, min_confidence outside [0, 1],
max_size below 1, an invalid logging level, or notifications enabled with
an empty token or chat id — and in particular the configuration with
notifications enabled and an empty token is rejected. -/
theorem validate_config_iff_violation :
    (∀ c : PyConfig, (_validate_config c).isOk = false ↔ statedViolation c = true) ∧
    (_validate_config enabledEmptyTokenConfig).isOk = false := by
  constructor
  · intro c
    obtain ⟨p, a, n, k, lg, sec⟩ := c
    cases p with
    | none => simp [_validate_config, statedViolation, Except.isOk, Except.toBool]
    | some p =>
      cases a with
      | none => simp [_validate_config, statedViolation, Except.isOk, Except.toBool]
      | some a =>
        cases n with
        | none => simp [_validate_config, statedViolation, Except.isOk, Except.toBool]
        | some n =>
          cases k with
          | none => simp [_validate_config, statedViolation, Except.isOk, Except.toBool]
          | some k =>
            cases lg with
            | none => simp [_validate_config, statedViolation, Except.isOk, Except.toBool]
            | some lg =>
              cases sec with
              | none => simp [_validate_config, statedViolation, Except.isOk, Except.toBool]
              | some sec =>
                simp only [_validate_config, statedViolation, Option.isNone_some,
                  Bool.false_or]
                split_ifs with h1 h2 h3 h4 h5 h6 h7 <;>
                  simp_all [Except.isOk, Except.toBool]
                all_goals
                  cases le_or_lt 0 a.min_confidence with
                  | inl hmc => tauto
                  | inr hmc => tauto
  · with_unfolding_all decide
